import Mathlib

/-
Shallow embedding of the aio-pika Channel lifecycle state machine
(src/aio_pika/channel.py) and verification of its specification.

Modelling conventions:
- `asyncio.Event` (the `ready` latch) is a Bool field.
- The underlying transport channel (`self._channel`, an `UnderlayChannel`)
  is `Option Underlay`: `none` models the attribute not existing.  Each
  freshly created underlay carries a generation number drawn from a counter
  in the channel state, modelling Python object identity of the handle.
- Python exceptions are modelled as explicit error values.  An operation
  that may both mutate state and raise returns `Option Err × Channel`
  (the `Option Err` is the raised exception, `none` meaning normal return);
  a pure/constructor operation that raises before any mutation returns
  `Except Err _`.
- `close` is wrapped by the `@task` decorator (tools.py); awaiting the task
  re-raises any exception of the wrapped coroutine unchanged, so the
  decorator is transparent in this embedding.
- Cooperative-concurrency details (the operation lock, awaiting the
  connection) serialize the lifecycle operations; the embedding models each
  lifecycle operation as one atomic step, which is exactly what the lock
  guarantees.
-/

namespace AioPika

/-- Exchange types recognised by the client (exchange.py `ExchangeType`). -/
inductive ExchangeType where
  | direct
  | fanout
  | topic
  | headers
  | xDelayedMessage
  | xConsistentHash
deriving DecidableEq, Repr

/-- The underlying transport channel handle (`self._channel.channel`).
`gen` models Python object identity: every handle obtained from
`UnderlayChannel.create_channel` is a fresh object, so it gets a fresh
generation number.  `closed` is `self._channel.channel.is_closed`. -/
structure Underlay where
  gen : Nat
  closed : Bool
deriving DecidableEq, Repr

/-- A close/return callback registered in a `CallbackCollection`.
`hid` models the handler identity; `fails` records whether invoking the
handler raises (the collection swallows such failures, see spec 4.2). -/
structure Handler where
  hid : Nat
  fails : Bool
deriving DecidableEq, Repr

/-- The constructor arguments of an Exchange object (exchange.py is not in
src; the fields are exactly those passed by channel.py call sites, with the
type argument defaulting to direct as the spec's Exchange contract has it). -/
structure ExchangeParams where
  name : String
  ty : ExchangeType
  durable : Option Bool
  auto_delete : Bool
  internal : Bool
  passive : Bool
  arguments : Option Unit
deriving DecidableEq, Repr

/-- State of one `Channel` object (channel.py `Channel`). -/
structure Channel where
  publisher_confirms : Bool
  on_return_raises : Bool
  channel_number : Option Nat
  /-- the `self.ready` asyncio.Event: `true` iff the latch is set -/
  ready : Bool
  /-- `self._is_closed_by_user` -/
  is_closed_by_user : Bool
  /-- `self._channel`: `none` when the attribute does not exist -/
  underlay : Option Underlay
  /-- `self.default_exchange`: `none` before the first `_open` -/
  default_exchange : Option ExchangeParams
  close_callbacks : List Handler
  return_callbacks : List Handler
  delivery_tag : Nat
  /-- next fresh generation number for underlay handles (identity model) -/
  gen_counter : Nat
deriving DecidableEq, Repr

/-- `RuntimeError` raised by `Channel.__init__`. -/
inductive ConfigErr where
  | onReturnRaisesWithoutConfirms
deriving DecidableEq, Repr

/-- `RuntimeError`s raised by `Channel.initialize`. -/
inductive InitErr where
  | alreadyOpen
  | cannotInitClosed
deriving DecidableEq, Repr

/-- Exception propagating out of `Channel.close` when the underlying
channel close raises. -/
inductive CloseErr where
  | underlayCloseFailed
deriving DecidableEq, Repr

/-- `aiormq.exceptions.ChannelInvalidStateError` raised by the `channel`
property; the two constructors carry the two distinct messages. -/
inductive AccessErr where
  | notOpened
  | closed
deriving DecidableEq, Repr

/-- `RuntimeError` raised by `Channel.transaction`. -/
inductive TxErr where
  | confirmsEnabled
deriving DecidableEq, Repr

/-- Errors surfaced by exchange declaration: the readiness-guard errors of
the `channel` accessor, and the broker ChannelClosed on a failed passive
declare. -/
inductive DeclareErr where
  | invalidStateNotOpened
  | invalidStateClosed
  | channelClosedByBroker
deriving DecidableEq, Repr

/-- Reason delivered to close callbacks: `none` is a clean close,
`some` carries an exception (abstracted to a numeric code). -/
inductive CloseReason where
  | exceptionReason (code : Nat)
deriving DecidableEq, Repr

/-- Observable events of the peer-close notification handler, used to state
the ordering guarantee of `Channel.__on_close`. -/
inductive Event where
  | cbInvoked (hid : Nat) (reason : Option CloseReason)
  | readyCleared
deriving DecidableEq, Repr

/-- The channel state established by `Channel.__init__` after the flag
check passes (channel.py lines 77-95). -/
def freshChannel (channel_number : Option Nat)
    (publisher_confirms on_return_raises : Bool) : Channel where
  publisher_confirms := publisher_confirms
  on_return_raises := on_return_raises
  channel_number := channel_number
  ready := false
  is_closed_by_user := false
  underlay := none
  default_exchange := none
  close_callbacks := []
  return_callbacks := []
  delivery_tag := 0
  gen_counter := 0

/-- `Channel.__init__` (channel.py lines 54-95): the flag compatibility
check runs before any field assignment, so a failing construction
establishes no state (`Except` with no state on error). -/
def channelNew (channel_number : Option Nat)
    (publisher_confirms on_return_raises : Bool) : Except ConfigErr Channel :=
  if !publisher_confirms && on_return_raises then
    .error .onReturnRaisesWithoutConfirms
  else
    .ok (freshChannel channel_number publisher_confirms on_return_raises)

namespace Channel

/-- `Channel.is_initialized` (channel.py lines 97-101): the ready latch. -/
def isChannelOpenFlag (s : Channel) : Bool :=
  s.ready

/-- `Channel.is_closed` (channel.py lines 103-109).  When the latch is set,
`self._channel` exists in every reachable state, so the `none` branch is
unreachable; it is mapped to `true` (an absent handle is not usable). -/
def is_closed (s : Channel) : Bool :=
  if !s.ready || s.is_closed_by_user then true
  else
    match s.underlay with
    | some u => u.closed
    | none => true

/-- Modelled from the spec: CallbackCollection dispatch (tools.py is not in
src).  Spec 4.2: invocation calls every handler with the same argument, in
order; a failing handler is logged and does not prevent the remaining
handlers from running and does not propagate to the dispatch caller.  The
result is the trace of handler invocations (note it does not depend on the
`fails` flags). -/
def callbackCollectionFire (hs : List Handler) (reason : Option CloseReason) :
    List Event :=
  hs.map (fun h => Event.cbInvoked h.hid reason)

/-- `Channel.__on_close` (channel.py lines 190-194): dispatch the close
reason to every close callback, then (in a `finally`) clear the ready
latch.  Returns the ordered event trace together with the new state. -/
def on_close (s : Channel) (reason : Option CloseReason) :
    List Event × Channel :=
  (callbackCollectionFire s.close_callbacks reason ++ [Event.readyCleared],
   { s with ready := false })

/-- Modelled from the spec: `UnderlayChannel.close` (abc.py is not in src).
Spec section 6: the close primitive may fail with a broker-reported error
which propagates unchanged to the caller of the Channel method.  On a
successful close the underlying channel becomes closed and the close event
invokes the registered close callback, i.e. `Channel.__on_close` (spec 4.1:
the peer-close notification handler is invoked exactly once per close
event by the underlying transport channel).  `fail` selects the outcome of
this call. -/
def underlayClose (fail : Bool) (s : Channel) : Option CloseErr × Channel :=
  if fail then (some .underlayCloseFailed, s)
  else
    let s1 : Channel :=
      { s with underlay := s.underlay.map (fun u => { u with closed := true }) }
    (none, (on_close s1 none).2)

/-- `Channel.close` (channel.py lines 111-122): under the operation lock,
a logged no-op when the latch is unset; otherwise
`try: await self._channel.close()` with `finally: self._is_closed_by_user
= True`, so the flag is set whether or not the underlay close raises, and
any exception propagates to the caller (through the `@task` wrapper). -/
def close (fail : Bool) (s : Channel) : Option CloseErr × Channel :=
  if !s.ready then (none, s)
  else
    let r := underlayClose fail s
    (r.1, { r.2 with is_closed_by_user := true })

/-- Applying `close` to the state `n` times (for the idempotency claim). -/
def closeIter (fail : Bool) : Nat → Channel → Channel
  | 0, s => s
  | n + 1, s => closeIter fail n (close fail s).2

/-- The default exchange constructed by `Channel._open`
(channel.py lines 168-177). -/
def defaultExchangeParams : ExchangeParams where
  name := ""
  ty := .direct
  durable := some false
  auto_delete := false
  internal := false
  passive := false
  arguments := none

/-- `Channel._open` (channel.py lines 157-177): waits for the connection,
creates a fresh underlay channel (a new handle object, hence a fresh
generation number), resets the delivery tag and rebuilds the default
exchange.  `UnderlayChannel.create_channel` is not in src; per spec 4.1 it
opens a fresh channel with the fixed construction settings, modelled as
always succeeding (its failures are transport-level). -/
def openUnderlay (s : Channel) : Channel :=
  { s with
    underlay := some { gen := s.gen_counter, closed := false }
    gen_counter := s.gen_counter + 1
    delivery_tag := 0
    default_exchange := some defaultExchangeParams }

/-- `Channel.initialize` (channel.py lines 179-188): raises
`RuntimeError` when the latch is already set, raises when the channel was
explicitly closed by the user, and otherwise (under the lock) runs `_open`
and sets the ready latch.  Both raising branches run before any mutation.
(The trailing `_on_initialized` registers the return bridge on the
underlay handle, which has no footprint in this state.) -/
def initChannel (s : Channel) : Option InitErr × Channel :=
  if s.ready then (some .alreadyOpen, s)
  else if s.is_closed_by_user then (some .cannotInitClosed, s)
  else
    let s1 := openUnderlay s
    (none, { s1 with ready := true })

/-- `Channel.reopen` (channel.py lines 202-214): under the lock, drop the
current underlay reference, clear the closed-by-user flag, re-run `_open`
and set the ready latch. -/
def reopen (s : Channel) : Channel :=
  let s1 : Channel := { s with underlay := none, is_closed_by_user := false }
  let s2 := openUnderlay s1
  { s2 with ready := true }

/-- The `Channel.channel` property (channel.py lines 124-137): raises
`ChannelInvalidStateError` with the not-opened message when the latch is
unset, raises it with the closed message when `is_closed`, and otherwise
returns the live underlay handle.  (The final `none` branch is unreachable:
`is_closed` is already `true` when no handle exists.) -/
def channelAccessor (s : Channel) : Except AccessErr Underlay :=
  if !s.ready then .error .notOpened
  else if is_closed s then .error .closed
  else
    match s.underlay with
    | some u => .ok u
    | none => .error .closed

/-- A Transaction object (transaction.py is not in src; channel.py only
constructs `Transaction(self)`, a back-reference to the owning channel). -/
structure Transaction where
  chan : Channel
deriving DecidableEq, Repr

/-- `Channel.transaction` (channel.py lines 429-436): raises
`RuntimeError` when publisher confirms are enabled, otherwise returns a
Transaction bound to this channel.  A pure read: no channel state is
touched on either path. -/
def transaction (s : Channel) : Except TxErr Transaction :=
  if s.publisher_confirms then .error .confirmsEnabled
  else .ok { chan := s }

/-- An Exchange object bound to its owning channel (`channel=self` in the
constructor calls of channel.py). -/
structure BoundExchange where
  chan : Channel
  params : ExchangeParams
deriving DecidableEq, Repr

/-- Modelled from the spec: `Exchange.declare` (exchange.py is not in src).
Spec 4.1: the declare is issued against the live underlying channel through
the guarded accessor; with passive=true the broker verifies existence and
reports a ChannelClosed condition when the exchange does not exist.  The
broker state is abstracted as the list of existing exchange names. -/
def exchangeBrokerDeclare (broker : List String) (e : BoundExchange) :
    Except DeclareErr Unit :=
  match channelAccessor e.chan with
  | .error .notOpened => .error .invalidStateNotOpened
  | .error .closed => .error .invalidStateClosed
  | .ok _ =>
    if e.params.passive && !(broker.contains e.params.name) then
      .error .channelClosedByBroker
    else
      .ok ()

/-- `Channel.declare_exchange` (channel.py lines 219-269): the (dead for
genuine booleans) `auto_delete and durable is None` defaulting, then
construction of the Exchange object bound to this channel, then its
declare call; returns the constructed exchange on success. -/
def declare_exchange (broker : List String) (s : Channel) (name : String)
    (ty : ExchangeType) (durable : Option Bool)
    (auto_delete internal passive : Bool) (arguments : Option Unit) :
    Except DeclareErr BoundExchange :=
  let durable1 := if auto_delete && durable.isNone then some false else durable
  let ex : BoundExchange :=
    { chan := s
      params :=
        { name := name, ty := ty, durable := durable1
          auto_delete := auto_delete, internal := internal
          passive := passive, arguments := arguments } }
  match exchangeBrokerDeclare broker ex with
  | .error e => .error e
  | .ok _ => .ok ex

/-- The Exchange object built by `Channel.get_exchange` with ensure=false
(channel.py lines 294-302): passive=true, everything else defaulted, no
broker interaction. -/
def passiveExchangeObj (s : Channel) (name : String) : BoundExchange where
  chan := s
  params :=
    { name := name, ty := .direct, durable := some false
      auto_delete := false, internal := false
      passive := true, arguments := none }

/-- `Channel.get_exchange` (channel.py lines 271-302): with ensure=true it
delegates to `declare_exchange(name=name, passive=True)` (all other
arguments at their declared defaults); with ensure=false it constructs a
local Exchange object without any broker operation. -/
def get_exchange (broker : List String) (s : Channel) (name : String)
    (ensure : Bool) : Except DeclareErr BoundExchange :=
  if ensure then
    declare_exchange broker s name .direct (some false) false false true none
  else
    .ok (passiveExchangeObj s name)

end Channel

/-! Concrete states used by witnesses and counterexamples. -/

/-- A freshly constructed channel (publisher confirms on, returns not
raising), exactly the state `Channel.__init__` establishes. -/
def freshEx : Channel := freshChannel none true false

/-- The constructor really yields `freshEx` for these arguments. -/
theorem channelNew_freshEx : channelNew none true false = .ok freshEx := rfl

/-- `freshEx` after a successful initialize: latch set, live underlay. -/
def chanReadyEx : Channel := (Channel.initChannel freshEx).2

/-- `chanReadyEx` after the peer closed the underlying channel and the
close notification handler ran. -/
def peerClosedEx : Channel :=
  (Channel.on_close
    { chanReadyEx with underlay := some { gen := 0, closed := true } }
    (some (CloseReason.exceptionReason 7))).2

/-- `chanReadyEx` after a successful user `close`. -/
def userClosedEx : Channel := (Channel.close false chanReadyEx).2

namespace Channel

/-! Shared helper lemmas. -/

/-- On a channel whose latch is set and which is not closed, the underlay
handle exists and is itself open. -/
theorem underlay_some_of_open (u : Channel) (h4 : u.ready = true)
    (h5 : is_closed u = false) :
    ∃ w, u.underlay = some w ∧ w.closed = false := by
  cases hf : u.is_closed_by_user with
  | true => exact absurd h5 (by simp [is_closed, h4, hf])
  | false =>
    cases hu : u.underlay with
    | none => exact absurd h5 (by simp [is_closed, h4, hf, hu])
    | some w =>
      exact ⟨w, rfl, by simpa [is_closed, h4, hf, hu] using h5⟩

/-- Running `close` twice with a fixed underlay outcome returns the same
raised-exception/state pair as running it once. -/
theorem close_close (fail : Bool) (s : Channel) :
    close fail (close fail s).2 = close fail s := by
  by_cases h : s.ready = true
  · cases fail
    · simp [close, underlayClose, on_close, h]
    · simp [close, underlayClose, h]
  · simp [close, Bool.not_eq_true _ ▸ h, (by simpa using h : s.ready = false)]

/-- Any positive number of `close` steps fixes the state reached by one. -/
theorem closeIter_fixed (fail : Bool) (n : Nat) (s : Channel) :
    closeIter fail (n + 1) s = (close fail s).2 := by
  induction n generalizing s with
  | zero => rfl
  | succ n ih =>
    show closeIter fail (n + 1) (close fail s).2 = (close fail s).2
    rw [ih]
    exact congrArg Prod.snd (close_close fail s)

end Channel

/-! Claim theorems. -/

/-- C1, counterexample: on an initialized channel, `close` with a failing
underlying close raises the underlying exception to the caller, so the
claim that `close` never raises to the caller is false on the code (the
`try`/`finally` only guarantees the flag, not suppression, and per spec
section 6 close-primitive failures propagate unchanged). -/
theorem close_raises_when_underlay_close_fails :
    chanReadyEx.ready = true ∧
    (Channel.close true chanReadyEx).1 = some CloseErr.underlayCloseFailed :=
  ⟨rfl, rfl⟩

/-- C1 (amended): for every initialized channel and fixed underlying close
outcome, `close` always leaves the closed-by-user flag set (even when the
underlying close fails), calling it any number N = n+1 >= 1 of times
produces the same raised-exception/state pair - hence the same final state
- as calling it once, and it never raises when the underlying close
succeeds; however, when the underlying close itself fails, that failure is
re-raised to the caller. -/
theorem close_idem_sets_flag (fail : Bool) (s : Channel) (n : Nat)
    (h : s.ready = true) :
    (Channel.close fail s).2.is_closed_by_user = true ∧
    Channel.close fail (Channel.close fail s).2 = Channel.close fail s ∧
    Channel.closeIter fail (n + 1) s = (Channel.close fail s).2 ∧
    (Channel.close false s).1 = none := by
  refine ⟨?_, Channel.close_close fail s, Channel.closeIter_fixed fail n s, ?_⟩
  · cases fail <;> simp [Channel.close, Channel.underlayClose, Channel.on_close, h]
  · simp [Channel.close, Channel.underlayClose, Channel.on_close, h]

/-- C1 witness at the concrete initialized channel with a failing
underlying close, for three close calls. -/
theorem close_idem_sets_flag_witness :
    (Channel.close true chanReadyEx).2.is_closed_by_user = true ∧
    Channel.close true (Channel.close true chanReadyEx).2 =
      Channel.close true chanReadyEx ∧
    Channel.closeIter true 3 chanReadyEx = (Channel.close true chanReadyEx).2 ∧
    (Channel.close false chanReadyEx).1 = none :=
  close_idem_sets_flag true chanReadyEx 2 rfl

/-- C2: a successful initialize (latch unset, not user-closed) raises
nothing and sets the ready latch; any completed user `close` leaves the
latch cleared; the peer-close notification handler clears it; and `reopen`
sets it again. -/
theorem ready_latch_lifecycle (s t u v : Channel) (r : Option CloseReason)
    (h1 : s.ready = false) (h2 : s.is_closed_by_user = false) :
    (Channel.initChannel s).1 = none ∧
    (Channel.initChannel s).2.ready = true ∧
    (Channel.close false t).2.ready = false ∧
    (Channel.on_close u r).2.ready = false ∧
    (Channel.reopen v).ready = true := by
  refine ⟨?_, ?_, ?_, rfl, rfl⟩
  · simp [Channel.initChannel, h1, h2]
  · simp [Channel.initChannel, h1, h2]
  · by_cases ht : t.ready = true
    · simp [Channel.close, Channel.underlayClose, Channel.on_close, ht]
    · simp [Channel.close, ht, (by simpa using ht : t.ready = false)]

/-- C2 witness: the fresh channel initializes and sets the latch; a user
close of the ready channel, a peer close, and a reopen behave as stated. -/
theorem ready_latch_lifecycle_witness :
    (Channel.initChannel freshEx).1 = none ∧
    (Channel.initChannel freshEx).2.ready = true ∧
    (Channel.close false chanReadyEx).2.ready = false ∧
    (Channel.on_close chanReadyEx (some (CloseReason.exceptionReason 3))).2.ready
      = false ∧
    (Channel.reopen userClosedEx).ready = true :=
  ready_latch_lifecycle freshEx chanReadyEx chanReadyEx userClosedEx
    (some (CloseReason.exceptionReason 3)) rfl rfl

/-- C3: on an already-initialized channel (latch set) initialize raises
the already-initialized error and returns the state unchanged; on a
channel the user closed and never reopened (latch unset, flag set) it
raises the closed-channel error and returns the state unchanged. -/
theorem initChannel_lifecycle_errors (s t : Channel)
    (h1 : s.ready = true) (h2 : t.ready = false)
    (h3 : t.is_closed_by_user = true) :
    Channel.initChannel s = (some InitErr.alreadyOpen, s) ∧
    Channel.initChannel t = (some InitErr.cannotInitClosed, t) := by
  constructor
  · simp [Channel.initChannel, h1]
  · simp [Channel.initChannel, h2, h3]

/-- C3 witness at the concrete initialized channel and the concrete
user-closed channel. -/
theorem initChannel_lifecycle_errors_witness :
    Channel.initChannel chanReadyEx = (some InitErr.alreadyOpen, chanReadyEx) ∧
    Channel.initChannel userClosedEx =
      (some InitErr.cannotInitClosed, userClosedEx) :=
  initChannel_lifecycle_errors chanReadyEx userClosedEx rfl rfl rfl

/-- C4: constructing a Channel fails (with the configuration error, and
with no state established) exactly when on-return-raises is requested
without publisher confirms, and succeeds with the fresh constructor state
for every other flag combination. -/
theorem channelNew_config_check (n : Option Nat) (pc orr : Bool) :
    channelNew n pc orr =
      (if orr && !pc then .error ConfigErr.onReturnRaisesWithoutConfirms
       else .ok (freshChannel n pc orr)) ∧
    (channelNew n pc orr).isOk = (pc || !orr) := by
  cases pc <;> cases orr <;> exact ⟨rfl, rfl⟩

/-- C5, counterexample: a channel that was initialized and then closed by
the peer is currently closed (its public is-closed predicate holds), yet
the live-channel accessor raises the not-opened invalid-state error, not
the error carrying the closed reason - the not-opened check runs first and
sees the cleared latch. -/
theorem accessor_reason_mismatch_when_closed :
    Channel.is_closed peerClosedEx = true ∧
    Channel.channelAccessor peerClosedEx = .error AccessErr.notOpened ∧
    ¬ Channel.channelAccessor peerClosedEx = .error AccessErr.closed := by
  refine ⟨rfl, rfl, fun h => ?_⟩
  rw [show Channel.channelAccessor peerClosedEx
        = .error AccessErr.notOpened from rfl] at h
  injection h with h2
  exact AccessErr.noConfusion h2

/-- C5 (amended): the accessor raises the not-opened invalid-state error
whenever the ready latch is unset (never-initialized and peer-closed
channels alike); it raises the invalid-state error with the distinct
closed reason whenever the latch is set and the channel is currently
closed; and it returns the live underlay handle exactly when the latch is
set and the channel is not closed. -/
theorem channelAccessor_characterization (s t u v : Channel) (w : Underlay)
    (h1 : s.ready = false) (h2 : t.ready = true)
    (h3 : Channel.is_closed t = true) (h4 : u.ready = true)
    (h5 : Channel.is_closed u = false) (h6 : u.underlay = some w) :
    Channel.channelAccessor s = .error AccessErr.notOpened ∧
    Channel.channelAccessor t = .error AccessErr.closed ∧
    Channel.channelAccessor u = .ok w ∧
    (Channel.channelAccessor v).isOk = (v.ready && !(Channel.is_closed v)) := by
  refine ⟨?_, ?_, ?_, ?_⟩
  · simp [Channel.channelAccessor, h1]
  · simp [Channel.channelAccessor, h2, h3]
  · simp [Channel.channelAccessor, h4, h5, h6]
  · cases hr : v.ready
    · simp [Channel.channelAccessor, hr, Except.isOk, Except.toBool]
    · cases hc : Channel.is_closed v
      · obtain ⟨w1, hw1, _⟩ := Channel.underlay_some_of_open v hr hc
        simp [Channel.channelAccessor, hr, hc, hw1, Except.isOk, Except.toBool]
      · simp [Channel.channelAccessor, hr, hc, Except.isOk, Except.toBool]

/-- C5 witness: the fresh channel (not-opened error and the isOk
equation), a ready channel whose user close failed (closed-reason error),
and the ready channel (handle returned). -/
theorem channelAccessor_characterization_witness :
    Channel.channelAccessor freshEx = .error AccessErr.notOpened ∧
    Channel.channelAccessor (Channel.close true chanReadyEx).2 =
      .error AccessErr.closed ∧
    Channel.channelAccessor chanReadyEx = .ok { gen := 0, closed := false } ∧
    (Channel.channelAccessor freshEx).isOk =
      (freshEx.ready && !(Channel.is_closed freshEx)) :=
  channelAccessor_characterization freshEx (Channel.close true chanReadyEx).2
    chanReadyEx freshEx { gen := 0, closed := false } rfl rfl rfl rfl rfl rfl

/-- C6: get-exchange with ensure delegates to passive declare with the
defaulted arguments, so the two are observably equivalent: on a usable
channel both raise the broker channel-closed error when the exchange does
not exist and both return the same passive Exchange object bound to this
channel when it does; with ensure off, get-exchange returns the locally
constructed Exchange object irrespective of the broker state (no broker
operation). -/
theorem get_exchange_equiv_declare_passive (s : Channel) (name : String)
    (bAbsent bPresent b1 b2 : List String)
    (h1 : s.ready = true) (h2 : Channel.is_closed s = false)
    (h3 : bAbsent.contains name = false)
    (h4 : bPresent.contains name = true) :
    Channel.get_exchange b1 s name true =
      Channel.declare_exchange b1 s name .direct (some false)
        false false true none ∧
    Channel.get_exchange b1 s name false = Channel.get_exchange b2 s name false ∧
    Channel.get_exchange b1 s name false =
      .ok (Channel.passiveExchangeObj s name) ∧
    Channel.get_exchange bAbsent s name true =
      .error DeclareErr.channelClosedByBroker ∧
    Channel.declare_exchange bAbsent s name .direct (some false)
      false false true none = .error DeclareErr.channelClosedByBroker ∧
    Channel.get_exchange bPresent s name true =
      .ok (Channel.passiveExchangeObj s name) ∧
    Channel.declare_exchange bPresent s name .direct (some false)
      false false true none = .ok (Channel.passiveExchangeObj s name) := by
  obtain ⟨w, hw, _⟩ := Channel.underlay_some_of_open s h1 h2
  have h3m : ¬ name ∈ bAbsent := by simpa using h3
  have h4m : name ∈ bPresent := by simpa using h4
  refine ⟨rfl, rfl, rfl, ?_, ?_, ?_, ?_⟩ <;>
    simp [Channel.get_exchange, Channel.declare_exchange,
      Channel.exchangeBrokerDeclare, Channel.channelAccessor,
      Channel.passiveExchangeObj, h1, h2, h3m, h4m, hw]

/-- C6 witness on the concrete ready channel, with a broker lacking and a
broker holding the exchange named e. -/
theorem get_exchange_equiv_declare_passive_witness :
    Channel.get_exchange [] chanReadyEx "e" true =
      Channel.declare_exchange [] chanReadyEx "e" .direct (some false)
        false false true none ∧
    Channel.get_exchange [] chanReadyEx "e" false =
      Channel.get_exchange ["q"] chanReadyEx "e" false ∧
    Channel.get_exchange [] chanReadyEx "e" false =
      .ok (Channel.passiveExchangeObj chanReadyEx "e") ∧
    Channel.get_exchange [] chanReadyEx "e" true =
      .error DeclareErr.channelClosedByBroker ∧
    Channel.declare_exchange [] chanReadyEx "e" .direct (some false)
      false false true none = .error DeclareErr.channelClosedByBroker ∧
    Channel.get_exchange ["e"] chanReadyEx "e" true =
      .ok (Channel.passiveExchangeObj chanReadyEx "e") ∧
    Channel.declare_exchange ["e"] chanReadyEx "e" .direct (some false)
      false false true none = .ok (Channel.passiveExchangeObj chanReadyEx "e") :=
  get_exchange_equiv_declare_passive chanReadyEx "e" [] ["e"] [] ["q"]
    rfl rfl (by decide) (by decide)

/-- C7: `transaction` raises the configuration error exactly when
publisher confirms are enabled, and otherwise returns a Transaction bound
to this channel; it is a pure read of the channel state. -/
theorem transaction_confirms_iff (s : Channel) :
    Channel.transaction s =
      (if s.publisher_confirms then .error TxErr.confirmsEnabled
       else .ok { chan := s }) ∧
    (Channel.transaction s).isOk = !s.publisher_confirms := by
  refine ⟨rfl, ?_⟩
  by_cases h : s.publisher_confirms <;>
    simp [Channel.transaction, h, Except.isOk, Except.toBool]

/-- C8: the peer-close notification handler first invokes every registered
close callback, in registration order, with the close reason (including
callbacks whose invocation fails - the trace is independent of the
handlers' failure flags), and only afterwards clears the ready latch: the
latch-clear event is the last event of the trace and everything before it
is exactly the callback dispatch; the only state change is the cleared
latch. -/
theorem on_close_dispatch_before_clear (s : Channel) (r : Option CloseReason) :
    (Channel.on_close s r).1 =
      s.close_callbacks.map (fun h => Event.cbInvoked h.hid r)
        ++ [Event.readyCleared] ∧
    (Channel.on_close s r).1.dropLast =
      s.close_callbacks.map (fun h => Event.cbInvoked h.hid r) ∧
    (Channel.on_close s r).1.getLast? = some Event.readyCleared ∧
    (Channel.on_close s r).2 = { s with ready := false } := by
  refine ⟨rfl, ?_, ?_, rfl⟩
  · simp [Channel.on_close, Channel.callbackCollectionFire,
      List.dropLast_concat]
  · simp [Channel.on_close, List.getLast?_concat]

/-- C9: reopen of a channel holding an underlay handle older than the
freshness counter sets the ready latch, clears the closed-by-user flag,
replaces the underlying handle by a fresh open one (so it differs from the
previous handle) and recreates the default exchange, while leaving the
close-callback and return-callback subscriptions, publisher confirms,
on-return-raises and the channel number unchanged. -/
theorem reopen_frame (s : Channel) (u : Underlay)
    (h1 : s.underlay = some u) (h2 : u.gen < s.gen_counter) :
    (Channel.reopen s).ready = true ∧
    (Channel.reopen s).is_closed_by_user = false ∧
    (Channel.reopen s).underlay =
      some { gen := s.gen_counter, closed := false } ∧
    ¬ (Channel.reopen s).underlay = s.underlay ∧
    (Channel.reopen s).default_exchange =
      some Channel.defaultExchangeParams ∧
    (Channel.reopen s).close_callbacks = s.close_callbacks ∧
    (Channel.reopen s).return_callbacks = s.return_callbacks ∧
    (Channel.reopen s).publisher_confirms = s.publisher_confirms ∧
    (Channel.reopen s).on_return_raises = s.on_return_raises ∧
    (Channel.reopen s).channel_number = s.channel_number := by
  refine ⟨rfl, rfl, rfl, ?_, rfl, rfl, rfl, rfl, rfl, rfl⟩
  intro he
  rw [h1, show (Channel.reopen s).underlay
        = some { gen := s.gen_counter, closed := false } from rfl] at he
  injection he with he2
  rw [← he2] at h2
  exact absurd h2 (lt_irrefl _)

/-- C9 witness at the concrete user-closed channel, whose underlay handle
has generation 0 while the counter is 1. -/
theorem reopen_frame_witness :
    (Channel.reopen userClosedEx).ready = true ∧
    (Channel.reopen userClosedEx).is_closed_by_user = false ∧
    (Channel.reopen userClosedEx).underlay =
      some { gen := userClosedEx.gen_counter, closed := false } ∧
    ¬ (Channel.reopen userClosedEx).underlay = userClosedEx.underlay ∧
    (Channel.reopen userClosedEx).default_exchange =
      some Channel.defaultExchangeParams ∧
    (Channel.reopen userClosedEx).close_callbacks =
      userClosedEx.close_callbacks ∧
    (Channel.reopen userClosedEx).return_callbacks =
      userClosedEx.return_callbacks ∧
    (Channel.reopen userClosedEx).publisher_confirms =
      userClosedEx.publisher_confirms ∧
    (Channel.reopen userClosedEx).on_return_raises =
      userClosedEx.on_return_raises ∧
    (Channel.reopen userClosedEx).channel_number =
      userClosedEx.channel_number :=
  reopen_frame userClosedEx { gen := 0, closed := true } rfl (by decide)

/-- C10: every successfully constructed channel starts with the latch
unset and already reports itself closed through the public is-closed
predicate, and any channel whose closed-by-user flag is set reports itself
closed regardless of the underlying handle's own state. -/
theorem is_closed_fresh_and_user_flag (n : Option Nat) (pc orr : Bool)
    (s c0 : Channel) (h1 : channelNew n pc orr = .ok c0)
    (h2 : s.is_closed_by_user = true) :
    Channel.is_closed c0 = true ∧ c0.ready = false ∧
    Channel.is_closed s = true := by
  have hc0 : c0 = freshChannel n pc orr := by
    unfold channelNew at h1
    split at h1
    · exact absurd h1 (by simp)
    · simpa using h1.symm
  subst hc0
  exact ⟨rfl, rfl, by simp [Channel.is_closed, h2]⟩

/-- C10 witness: the concrete fresh channel reports closed and unset
latch, and the ready channel after a failed close (flag set, underlay
still open) also reports closed. -/
theorem is_closed_fresh_and_user_flag_witness :
    Channel.is_closed freshEx = true ∧ freshEx.ready = false ∧
    Channel.is_closed (Channel.close true chanReadyEx).2 = true :=
  is_closed_fresh_and_user_flag none true false
    (Channel.close true chanReadyEx).2 freshEx rfl rfl

end AioPika
